import Mathlib

set_option linter.unusedVariables false

/-! Verification development for the ayy-subdomain-redirect repository.

The repository holds two command line tools:
* dns-checker.py: resolves each subdomain's A and AAAA records and
  compares the first returned address with the reference host's first
  address, then prints remediation instructions;
* subdomain-linter.py: validates a folder of YAML subdomain-redirect
  files against a fixed schema and reports all accumulated errors.

Both tools are embedded shallowly below: parsed YAML documents become an
inductive value type, DNS resolution becomes an explicit oracle function,
raised LintError exceptions become an error-carrying outcome type, and an
uncaught Python exception (which aborts the interpreter) becomes a crash
outcome. -/

/-- A value returned by yaml.safe_load: None, str, bool, int, list or
dict.  A `map` models a Python dict: its keys are pairwise distinct and
kept in insertion order; lookups return the first matching pair. -/
inductive Yaml where
  | null
  | str (s : String)
  | bool (b : Bool)
  | int (n : Int)
  | list (xs : List Yaml)
  | map (kvs : List (Yaml × Yaml))

mutual

/-- Structural equality of parsed YAML values (Python ==) is decidable. -/
def yamlDecEq : (a b : Yaml) → Decidable (a = b)
  | Yaml.null, Yaml.null => isTrue rfl
  | Yaml.null, Yaml.str _ => isFalse (fun h => Yaml.noConfusion h)
  | Yaml.null, Yaml.bool _ => isFalse (fun h => Yaml.noConfusion h)
  | Yaml.null, Yaml.int _ => isFalse (fun h => Yaml.noConfusion h)
  | Yaml.null, Yaml.list _ => isFalse (fun h => Yaml.noConfusion h)
  | Yaml.null, Yaml.map _ => isFalse (fun h => Yaml.noConfusion h)
  | Yaml.str _, Yaml.null => isFalse (fun h => Yaml.noConfusion h)
  | Yaml.str s, Yaml.str t =>
    match String.decEq s t with
    | isTrue h => isTrue (by rw [h])
    | isFalse h => isFalse (fun hh => h (Yaml.str.inj hh))
  | Yaml.str _, Yaml.bool _ => isFalse (fun h => Yaml.noConfusion h)
  | Yaml.str _, Yaml.int _ => isFalse (fun h => Yaml.noConfusion h)
  | Yaml.str _, Yaml.list _ => isFalse (fun h => Yaml.noConfusion h)
  | Yaml.str _, Yaml.map _ => isFalse (fun h => Yaml.noConfusion h)
  | Yaml.bool _, Yaml.null => isFalse (fun h => Yaml.noConfusion h)
  | Yaml.bool _, Yaml.str _ => isFalse (fun h => Yaml.noConfusion h)
  | Yaml.bool a, Yaml.bool b =>
    match instDecidableEqBool a b with
    | isTrue h => isTrue (by rw [h])
    | isFalse h => isFalse (fun hh => h (Yaml.bool.inj hh))
  | Yaml.bool _, Yaml.int _ => isFalse (fun h => Yaml.noConfusion h)
  | Yaml.bool _, Yaml.list _ => isFalse (fun h => Yaml.noConfusion h)
  | Yaml.bool _, Yaml.map _ => isFalse (fun h => Yaml.noConfusion h)
  | Yaml.int _, Yaml.null => isFalse (fun h => Yaml.noConfusion h)
  | Yaml.int _, Yaml.str _ => isFalse (fun h => Yaml.noConfusion h)
  | Yaml.int _, Yaml.bool _ => isFalse (fun h => Yaml.noConfusion h)
  | Yaml.int m, Yaml.int n =>
    match Int.instDecidableEq m n with
    | isTrue h => isTrue (by rw [h])
    | isFalse h => isFalse (fun hh => h (Yaml.int.inj hh))
  | Yaml.int _, Yaml.list _ => isFalse (fun h => Yaml.noConfusion h)
  | Yaml.int _, Yaml.map _ => isFalse (fun h => Yaml.noConfusion h)
  | Yaml.list _, Yaml.null => isFalse (fun h => Yaml.noConfusion h)
  | Yaml.list _, Yaml.str _ => isFalse (fun h => Yaml.noConfusion h)
  | Yaml.list _, Yaml.bool _ => isFalse (fun h => Yaml.noConfusion h)
  | Yaml.list _, Yaml.int _ => isFalse (fun h => Yaml.noConfusion h)
  | Yaml.list xs, Yaml.list ys =>
    match yamlListDecEq xs ys with
    | isTrue h => isTrue (by rw [h])
    | isFalse h => isFalse (fun hh => h (Yaml.list.inj hh))
  | Yaml.list _, Yaml.map _ => isFalse (fun h => Yaml.noConfusion h)
  | Yaml.map _, Yaml.null => isFalse (fun h => Yaml.noConfusion h)
  | Yaml.map _, Yaml.str _ => isFalse (fun h => Yaml.noConfusion h)
  | Yaml.map _, Yaml.bool _ => isFalse (fun h => Yaml.noConfusion h)
  | Yaml.map _, Yaml.int _ => isFalse (fun h => Yaml.noConfusion h)
  | Yaml.map _, Yaml.list _ => isFalse (fun h => Yaml.noConfusion h)
  | Yaml.map xs, Yaml.map ys =>
    match yamlPairsDecEq xs ys with
    | isTrue h => isTrue (by rw [h])
    | isFalse h => isFalse (fun hh => h (Yaml.map.inj hh))

/-- Decidable equality of YAML lists. -/
def yamlListDecEq : (a b : List Yaml) → Decidable (a = b)
  | [], [] => isTrue rfl
  | [], _ :: _ => isFalse (fun h => List.noConfusion h)
  | _ :: _, [] => isFalse (fun h => List.noConfusion h)
  | x :: xs, y :: ys =>
    match yamlDecEq x y, yamlListDecEq xs ys with
    | isTrue h1, isTrue h2 => isTrue (by rw [h1, h2])
    | isFalse h1, _ => isFalse (fun h => h1 (List.cons.inj h).1)
    | _, isFalse h2 => isFalse (fun h => h2 (List.cons.inj h).2)

/-- Decidable equality of YAML key-value pair lists. -/
def yamlPairsDecEq : (a b : List (Yaml × Yaml)) → Decidable (a = b)
  | [], [] => isTrue rfl
  | [], _ :: _ => isFalse (fun h => List.noConfusion h)
  | _ :: _, [] => isFalse (fun h => List.noConfusion h)
  | (k1, v1) :: xs, (k2, v2) :: ys =>
    match yamlDecEq k1 k2, yamlDecEq v1 v2, yamlPairsDecEq xs ys with
    | isTrue h1, isTrue h2, isTrue h3 => isTrue (by rw [h1, h2, h3])
    | isFalse h1, _, _ =>
      isFalse (fun h => h1 (congrArg Prod.fst (List.cons.inj h).1))
    | _, isFalse h2, _ =>
      isFalse (fun h => h2 (congrArg Prod.snd (List.cons.inj h).1))
    | _, _, isFalse h3 => isFalse (fun h => h3 (List.cons.inj h).2)

end

instance : DecidableEq Yaml := yamlDecEq

mutual

/-- Python repr() of a parsed YAML value.  Escaping inside string repr is
not modelled; the values actually rendered by the linter are scalars. -/
def pyRepr : Yaml → String
  | Yaml.null => "None"
  | Yaml.str s => "\x27" ++ s ++ "\x27"
  | Yaml.bool true => "True"
  | Yaml.bool false => "False"
  | Yaml.int n => toString n
  | Yaml.list xs => "[" ++ String.intercalate ", " (pyReprList xs) ++ "]"
  | Yaml.map kvs => "\x7b" ++ String.intercalate ", " (pyReprPairs kvs) ++ "\x7d"

/-- repr() of each element of a Python list. -/
def pyReprList : List Yaml → List String
  | [] => []
  | x :: xs => pyRepr x :: pyReprList xs

/-- repr() of each key: value entry of a Python dict. -/
def pyReprPairs : List (Yaml × Yaml) → List String
  | [] => []
  | (k, v) :: xs => (pyRepr k ++ ": " ++ pyRepr v) :: pyReprPairs xs

end

/-- Python str() of a parsed YAML value, as interpolated by an f-string:
like repr() except that a top level string is taken verbatim. -/
def pyStr : Yaml → String
  | Yaml.str s => s
  | v => pyRepr v

/-- The Python type name of a parsed YAML value. -/
def pyTypeName : Yaml → String
  | Yaml.null => "NoneType"
  | Yaml.str _ => "str"
  | Yaml.bool _ => "bool"
  | Yaml.int _ => "int"
  | Yaml.list _ => "list"
  | Yaml.map _ => "dict"

/-- The three Python types that occur in SUBDOMAIN_VALUE_SCHEMA. -/
inductive PyType where
  | list
  | str
  | bool
  deriving DecidableEq, Repr

/-- isinstance(v, t) for the three schema types.  A Python bool is not an
instance of str or list, and only booleans are instances of bool among
the values yaml.safe_load can produce. -/
def isinstance : Yaml → PyType → Bool
  | Yaml.list _, PyType.list => true
  | Yaml.str _, PyType.str => true
  | Yaml.bool _, PyType.bool => true
  | _, _ => false

/-- str() of a Python type object, as interpolated into error messages. -/
def pyTypeStr : PyType → String
  | PyType.list => "<class \x27list\x27>"
  | PyType.str => "<class \x27str\x27>"
  | PyType.bool => "<class \x27bool\x27>"

/-- SUBDOMAIN_VALUE_SCHEMA: field name to (type, required), in
declaration order. -/
def SUBDOMAIN_VALUE_SCHEMA : List (String × PyType × Bool) :=
  [("redirect_from", PyType.list, true),
   ("redirect_to", PyType.str, true),
   ("include_path", PyType.bool, false),
   ("permanent", PyType.bool, false)]

/-- Lookup of a field name in SUBDOMAIN_VALUE_SCHEMA (dict membership
and indexing on the schema). -/
def schemaFieldType (s : String) : Option PyType :=
  (SUBDOMAIN_VALUE_SCHEMA.find? (fun e => e.1 == s)).map (fun e => e.2.1)

/-- A LintError raised by subdomain-linter.py, as structured data: one
constructor per raise site, carrying exactly the values that the source
interpolates into the message string (see `render`). -/
inductive LintErr where
  | yamlSyntax (path : String) (msg : String)
  | notADict (path : String)
  | noKeys (path : String)
  | keyNotString (path : String) (key : Yaml)
  | invalidKey (path : String) (key : Yaml)
  | wrongType (path : String) (field : String) (ty : PyType)
  | requiredMissing (path : String) (field : String)
  | badSuffix (path : String) (host : String)
  | badUrl (path : String)
  | notYamlFile (name : String)
  | duplicateKeys (dups : List Yaml) (files : List String)
  deriving DecidableEq

/-- The message string of each LintError, following the f-strings of the
source.  For duplicateKeys, Python renders a set whose iteration order is
unspecified; this rendering fixes one order, everything else is as in the
source. -/
def render : LintErr → String
  | LintErr.yamlSyntax path msg => "Error in " ++ path ++ ": " ++ msg
  | LintErr.notADict path => path ++ ": Subdomain should be a dict"
  | LintErr.noKeys path => path ++ ": Subdomain should have at least one key"
  | LintErr.keyNotString path key =>
      path ++ ": Subdomain key " ++ pyStr key ++ " should be a string"
  | LintErr.invalidKey path key => path ++ ": " ++ pyStr key ++ " is not a valid key"
  | LintErr.wrongType path f ty => path ++ ": " ++ f ++ " should be a " ++ pyTypeStr ty
  | LintErr.requiredMissing path f => path ++ ": " ++ f ++ " is required"
  | LintErr.badSuffix path h =>
      path ++ ": " ++ h ++ " should end with \x27.ayy.fi\x27 or \x27.otax.fi\x27"
  | LintErr.badUrl path => path ++ ": redirect_to should be a valid URL"
  | LintErr.notYamlFile name =>
      name ++ " is not a .yaml or .yml file. Only YAML files are allowed"
  | LintErr.duplicateKeys dups fs =>
      "Duplicate keys: \x7b" ++ String.intercalate ", " (pyReprList dups) ++ "\x7d in [" ++
        String.intercalate ", " (fs.map (fun f => "\x27" ++ f ++ "\x27")) ++ "]"

/-- Outcome of running a piece of linter code: normal return, a raised
LintError (caught by main's except clause), or an uncaught Python
exception such as AttributeError, which aborts the whole interpreter.
Crash messages summarise the Python exception; they are not byte-exact
tracebacks. -/
inductive PyOutcome (α : Type) where
  | ok (a : α)
  | lintError (e : LintErr)
  | crash (msg : String)
  deriving DecidableEq

/-- Sequencing of two statements: the first raised exception wins. -/
def pySeq (a b : PyOutcome Unit) : PyOutcome Unit :=
  match a with
  | PyOutcome.ok _ => b
  | other => other

/-- First non-string top level key, if any: the loop
`for key in subdomain_keys: if not isinstance(key, str)`. -/
def firstNonStringKey : List (Yaml × Yaml) → Option Yaml
  | [] => none
  | (Yaml.str _, _) :: rest => firstNonStringKey rest
  | (k, _) :: _ => some k

/-- Python dict membership test `s in d` for a string key. -/
def hasStrKey (kvs : List (Yaml × Yaml)) (s : String) : Bool :=
  kvs.any (fun kv => kv.1 == Yaml.str s)

/-- Python dict lookup `d[s]` for a string key. -/
def dictGet (kvs : List (Yaml × Yaml)) (s : String) : Option Yaml :=
  (kvs.find? (fun kv => kv.1 == Yaml.str s)).map Prod.snd

/-- The loop `for key, value in subdomain_value.items()`: an unknown
field name raises "is not a valid key", a known field with a value of the
wrong type raises "should be a <class ...>". -/
def checkFieldTypes (path : String) : List (Yaml × Yaml) → PyOutcome Unit
  | [] => PyOutcome.ok ()
  | (Yaml.str s, v) :: rest =>
    match schemaFieldType s with
    | none => PyOutcome.lintError (LintErr.invalidKey path (Yaml.str s))
    | some ty =>
      if isinstance v ty then checkFieldTypes path rest
      else PyOutcome.lintError (LintErr.wrongType path s ty)
  | (k, _) :: _ => PyOutcome.lintError (LintErr.invalidKey path k)

/-- The loop `for key, value in SUBDOMAIN_VALUE_SCHEMA.items()` raising
"is required" for a required field that is absent. -/
def checkRequiredAux (path : String) (kvs : List (Yaml × Yaml)) :
    List (String × PyType × Bool) → PyOutcome Unit
  | [] => PyOutcome.ok ()
  | (f, _, req) :: rest =>
    if req && !(hasStrKey kvs f) then PyOutcome.lintError (LintErr.requiredMissing path f)
    else checkRequiredAux path kvs rest

/-- Required-field pass over the whole schema. -/
def checkRequired (path : String) (kvs : List (Yaml × Yaml)) : PyOutcome Unit :=
  checkRequiredAux path kvs SUBDOMAIN_VALUE_SCHEMA

/-- Whether the character list `p` starts the character list `s`. -/
def charsStartWith : List Char → List Char → Bool
  | _, [] => true
  | [], _ :: _ => false
  | c :: cs, d :: ds => c == d && charsStartWith cs ds

/-- Python str.startswith(p): p begins the string. -/
def pyStartsWith (s p : String) : Bool :=
  charsStartWith s.data p.data

/-- Python str.endswith(p): p ends the string. -/
def pyEndsWith (s p : String) : Bool :=
  charsStartWith s.data.reverse p.data.reverse

/-- The allowed domain condition on one redirect_from entry:
`redirect_from.endswith(".ayy.fi") or redirect_from.endswith(".otax.fi")`. -/
def allowedRedirectFrom (s : String) : Bool :=
  pyEndsWith s ".ayy.fi" || pyEndsWith s ".otax.fi"

/-- The loop `for redirect_from in subdomain_value["redirect_from"]`.
Calling .endswith on a non-string element raises an uncaught
AttributeError. -/
def checkFromList (path : String) : List Yaml → PyOutcome Unit
  | [] => PyOutcome.ok ()
  | Yaml.str h :: rest =>
    if allowedRedirectFrom h then checkFromList path rest
    else PyOutcome.lintError (LintErr.badSuffix path h)
  | v :: _ =>
    PyOutcome.crash
      ("AttributeError: \x27" ++ pyTypeName v ++ "\x27 object has no attribute \x27endswith\x27")

/-- Fetch subdomain_value["redirect_from"] and run the suffix loop.  When
this stage runs, the earlier type and required checks have passed, so the
field is present and a list; the other branches model Python's behaviour
on the unreachable shapes. -/
def checkFromSuffixes (path : String) (kvs : List (Yaml × Yaml)) : PyOutcome Unit :=
  match dictGet kvs "redirect_from" with
  | some (Yaml.list xs) => checkFromList path xs
  | some _ => PyOutcome.crash "TypeError: redirect_from is not iterable as hostnames"
  | none => PyOutcome.crash "KeyError: redirect_from"

/-- The check `subdomain_value["redirect_to"].startswith("http")`.  When
this stage runs, the earlier checks guarantee the field is present and a
string; the other branches model Python's behaviour on the unreachable
shapes. -/
def checkRedirectTo (path : String) (kvs : List (Yaml × Yaml)) : PyOutcome Unit :=
  match dictGet kvs "redirect_to" with
  | some (Yaml.str s) =>
    if pyStartsWith s "http" then PyOutcome.ok ()
    else PyOutcome.lintError (LintErr.badUrl path)
  | some _ => PyOutcome.crash "AttributeError: object has no attribute \x27startswith\x27"
  | none => PyOutcome.crash "KeyError: redirect_to"

/-- The body of `for subdomain_key in subdomain_keys` in
check_business_rules: validate one record value.  Calling .items() on a
non-dict value raises an uncaught AttributeError. -/
def checkRecord (path : String) (v : Yaml) : PyOutcome Unit :=
  match v with
  | Yaml.map kvs =>
    pySeq (checkFieldTypes path kvs)
      (pySeq (checkRequired path kvs)
        (pySeq (checkFromSuffixes path kvs) (checkRedirectTo path kvs)))
  | _ =>
    PyOutcome.crash
      ("AttributeError: \x27" ++ pyTypeName v ++ "\x27 object has no attribute \x27items\x27")

/-- Validate every record value of the document, in key order. -/
def checkValues (path : String) : List (Yaml × Yaml) → PyOutcome Unit
  | [] => PyOutcome.ok ()
  | (_, v) :: rest => pySeq (checkRecord path v) (checkValues path rest)

/-- check_business_rules(file_path) on the parsed document. -/
def check_business_rules (path : String) (doc : Yaml) : PyOutcome Unit :=
  match doc with
  | Yaml.map kvs =>
    if kvs.length = 0 then PyOutcome.lintError (LintErr.noKeys path)
    else
      match firstNonStringKey kvs with
      | some k => PyOutcome.lintError (LintErr.keyNotString path k)
      | none => checkValues path kvs
  | _ => PyOutcome.lintError (LintErr.notADict path)

/-- get_subdomain_key(file_path): `list(subdomain.keys())[0]`.  Only
called by main after check_business_rules succeeded, so the document is a
non-empty dict; the other branches model Python's behaviour there. -/
def get_subdomain_key : Yaml → PyOutcome Yaml
  | Yaml.map (kv :: _) => PyOutcome.ok kv.1
  | Yaml.map [] => PyOutcome.crash "IndexError: list index out of range"
  | _ => PyOutcome.crash "AttributeError: object has no attribute \x27keys\x27"

/-- Python's list.count for subdomain keys. -/
def countKey (keys : List Yaml) (k : Yaml) : Nat :=
  (keys.filter (fun x => x == k)).length

/-- The Python set() of a key list, modelled as a duplicate-free list
(membership is all that the source relies on; iteration order of a
Python set is unspecified). -/
def dedupKeys : List Yaml → List Yaml
  | [] => []
  | k :: rest =>
    if k ∈ dedupKeys rest then dedupKeys rest else k :: dedupKeys rest

/-- The set `duplicate_keys`: keys occurring more than once in the
collected key list (`keys.count(key) > 1`). -/
def duplicate_keys_of (keys : List Yaml) : List Yaml :=
  dedupKeys (keys.filter (fun k => decide (1 < countKey keys k)))

/-- check_no_duplicate_keys(keys_and_filename): the raised LintError, if
any.  files_with_duplicate_keys lists every file whose collected key is
one of the duplicate keys. -/
def check_no_duplicate_keys (keys_and_filename : List (Yaml × String)) : Option LintErr :=
  if (duplicate_keys_of (keys_and_filename.map Prod.fst)).isEmpty then none
  else some (LintErr.duplicateKeys
    (duplicate_keys_of (keys_and_filename.map Prod.fst))
    ((keys_and_filename.filter
        (fun p => decide (p.1 ∈ duplicate_keys_of (keys_and_filename.map Prod.fst)))).map
      Prod.snd))

/-- Contents of one file on disk, as seen through yaml.safe_load:
either a parse failure (yaml.YAMLError with some message) or a parsed
document.  An empty file parses to `Yaml.null`. -/
inductive FileContent where
  | malformed (msg : String)
  | parsed (doc : Yaml)
  deriving DecidableEq

/-- The extension test of main:
`file_name.endswith(".yaml") or file_name.endswith(".yml")`. -/
def isYamlName (name : String) : Bool :=
  pyEndsWith name ".yaml" || pyEndsWith name ".yml"

/-- os.path.join(folder, file_name) for a relative file name. -/
def pathJoin (folder name : String) : String :=
  folder ++ "/" ++ name

/-- check_yaml_format(file_path): re-raises a yaml.YAMLError as a
LintError. -/
def check_yaml_format (path : String) (c : FileContent) : PyOutcome Unit :=
  match c with
  | FileContent.malformed msg => PyOutcome.lintError (LintErr.yamlSyntax path msg)
  | FileContent.parsed _ => PyOutcome.ok ()

/-- How main's loop body disposes of one directory entry. -/
inductive EntryOutcome where
  | collected (key : Yaml)
  | fileError (e : LintErr)
  | badName
  | crashed (msg : String)
  deriving DecidableEq

/-- The body of `for file_name in os.listdir(args.folder)`: try
check_yaml_format then check_business_rules then get_subdomain_key,
catching LintError; a file whose name is not .yaml/.yml gets the
"Only YAML files are allowed" error. -/
def classifyEntry (folder name : String) (c : FileContent) : EntryOutcome :=
  if isYamlName name then
    match check_yaml_format (pathJoin folder name) c with
    | PyOutcome.lintError e => EntryOutcome.fileError e
    | PyOutcome.crash m => EntryOutcome.crashed m
    | PyOutcome.ok _ =>
      match c with
      | FileContent.malformed _ => EntryOutcome.crashed "unreachable"
      | FileContent.parsed doc =>
        match check_business_rules (pathJoin folder name) doc with
        | PyOutcome.ok _ =>
          match get_subdomain_key doc with
          | PyOutcome.ok key => EntryOutcome.collected key
          | PyOutcome.lintError _ => EntryOutcome.crashed "unreachable"
          | PyOutcome.crash m => EntryOutcome.crashed m
        | PyOutcome.lintError e => EntryOutcome.fileError e
        | PyOutcome.crash m => EntryOutcome.crashed m
  else EntryOutcome.badName

/-- The mutable state of main: linting_errors, keys_and_filename, and
the lines printed so far. -/
structure RunState where
  linting_errors : List LintErr
  keys_and_filename : List (Yaml × String)
  output : List String
  deriving DecidableEq

/-- State at the start of main. -/
def initState : RunState := ⟨[], [], []⟩

/-- main's loop over the directory listing, threading the mutable
state.  A caught LintError prints "Error in file: " and the path (print
inserts a separator space between its two arguments, hence the double
space) and appends the error; a file name without a YAML extension
appends the "Only YAML files are allowed" error; an uncaught exception
aborts the run. -/
def mainLoop (folder : String) (st : RunState) :
    List (String × FileContent) → Except String RunState
  | [] => Except.ok st
  | (name, c) :: rest =>
    match classifyEntry folder name c with
    | EntryOutcome.collected key =>
      mainLoop folder
        { st with keys_and_filename := st.keys_and_filename ++ [(key, name)] } rest
    | EntryOutcome.fileError e =>
      mainLoop folder
        { st with
          linting_errors := st.linting_errors ++ [e],
          output := st.output ++ ["Error in file:  " ++ pathJoin folder name] } rest
    | EntryOutcome.badName =>
      mainLoop folder
        { st with linting_errors := st.linting_errors ++ [LintErr.notYamlFile name] } rest
    | EntryOutcome.crashed m => Except.error m

/-- Observable result of one linter invocation: the accumulated error
list, the lines printed to stdout, and the exit status; or an uncaught
exception aborting the interpreter. -/
inductive MainResult where
  | exited (errors : List LintErr) (output : List String) (code : Nat)
  | crash (msg : String)
  deriving DecidableEq

/-- The error appended by the duplicate-key pass, as a list. -/
def dupErrList (pairs : List (Yaml × String)) : List LintErr :=
  match check_no_duplicate_keys pairs with
  | some e => [e]
  | none => []

/-- The tail of main after the loop: append the duplicate-key error if
any, then either print "No errors found" and exit 0 or print
"Linting errors:" followed by every accumulated error and exit 1. -/
def finalize (st : RunState) : MainResult :=
  if (st.linting_errors ++ dupErrList st.keys_and_filename).isEmpty then
    MainResult.exited (st.linting_errors ++ dupErrList st.keys_and_filename)
      (st.output ++ ["No errors found"]) 0
  else
    MainResult.exited (st.linting_errors ++ dupErrList st.keys_and_filename)
      (st.output ++ ["Linting errors:"] ++
        (st.linting_errors ++ dupErrList st.keys_and_filename).map render) 1

/-- main(args): run the loop over the folder listing, then report. -/
def mainRun (folder : String) (files : List (String × FileContent)) : MainResult :=
  match mainLoop folder initState files with
  | Except.error m => MainResult.crash m
  | Except.ok st => finalize st

/-- Errors of the "is not a .yaml or .yml file" category. -/
def isNotYamlFileErr : LintErr → Bool
  | LintErr.notYamlFile _ => true
  | _ => false

/-! Embedding of dns-checker.py. -/

/-- The reasons why the DNS check failed (class FailReasons). -/
inductive FailReasons where
  | NXDOMAIN
  | INCORRECT_IPv4
  | INCORRECT_IPv6
  | NOANSWER
  deriving DecidableEq, Repr

/-- The result of a DNS check (dataclass CheckResult). -/
structure CheckResult where
  domain : String
  ipv4 : Bool
  ipv6 : Bool
  fails : List FailReasons
  deriving DecidableEq, Repr

/-- The two record types the checker queries. -/
inductive RecordType where
  | A
  | AAAA
  deriving DecidableEq, Repr

/-- Outcome of one dns.resolver.query call: the first address of a
non-empty answer, or the NXDOMAIN / NoAnswer exception. -/
inductive DnsResponse where
  | answers (first : String)
  | nxdomain
  | noAnswer
  deriving DecidableEq, Repr

/-- The reference host. -/
def TARGET_HOSTNAME : String := "jokeri.ayy.fi"

/-- check_dns_record(domain, target_ipv4_address, target_ipv6_address).
DNS resolution is passed in as an oracle from (domain, record type) to a
response.  The two target arguments stand for the first element of the
reference host's answers (main passes the resolver answers and the
function only ever reads index 0 of them).  An NXDOMAIN or NoAnswer
exception raised by either query returns immediately with both matched
flags false. -/
def check_dns_record (domain : String)
    (target_ipv4_address target_ipv6_address : String)
    (resolve : String → RecordType → DnsResponse) : CheckResult :=
  match resolve domain RecordType.A with
  | DnsResponse.nxdomain => ⟨domain, false, false, [FailReasons.NXDOMAIN]⟩
  | DnsResponse.noAnswer => ⟨domain, false, false, [FailReasons.NOANSWER]⟩
  | DnsResponse.answers a4 =>
    let fails4 : List FailReasons :=
      if a4 != target_ipv4_address then [FailReasons.INCORRECT_IPv4] else []
    let ipv4_success : Bool := a4 == target_ipv4_address
    match resolve domain RecordType.AAAA with
    | DnsResponse.nxdomain => ⟨domain, false, false, [FailReasons.NXDOMAIN]⟩
    | DnsResponse.noAnswer => ⟨domain, false, false, [FailReasons.NOANSWER]⟩
    | DnsResponse.answers a6 =>
      ⟨domain, ipv4_success, a6 == target_ipv6_address,
        fails4 ++ (if a6 != target_ipv6_address then [FailReasons.INCORRECT_IPv6] else [])⟩

/-- print_fix_instructions(fails, target_cname, target_a_record,
target_aaaa_record): the list of lines written to stdout.  The loop
prints a "  - domain" line for every element of the list it is given and
then one instruction line per failure reason present. -/
def print_fix_instructions (fails : List CheckResult) (target_cname : String)
    (target_a_record target_aaaa_record : String) : List String :=
  "Fix instructions:" ::
  fails.flatMap (fun fail =>
    ("  - " ++ fail.domain) ::
    ((if fail.fails.contains FailReasons.NXDOMAIN then
        ["    - Create a CNAME record for " ++ fail.domain ++ " that points to " ++
          target_cname]
      else []) ++
     (if fail.fails.contains FailReasons.INCORRECT_IPv4 then
        ["    - Change " ++ fail.domain ++ " to point to " ++ TARGET_HOSTNAME ++ " (ipv4)"]
      else []) ++
     (if fail.fails.contains FailReasons.INCORRECT_IPv6 then
        ["    - Change " ++ fail.domain ++ " to point to " ++ TARGET_HOSTNAME ++ " (ipv6)"]
      else [])))

/-! Theorems about the DNS checker. -/

/-- C4: if resolution of a candidate hostname raises NXDOMAIN (the
hypothesis constrains only the A query, so the conclusion holds whatever
the AAAA query would have returned, i.e. no further record checks are
performed), the check result is exactly the NXDOMAIN failure with both
matched flags false. -/
theorem c4_nxdomain_result
    (domain target_ipv4_address target_ipv6_address : String)
    (resolve : String → RecordType → DnsResponse)
    (h : resolve domain RecordType.A = DnsResponse.nxdomain) :
    check_dns_record domain target_ipv4_address target_ipv6_address resolve =
      ⟨domain, false, false, [FailReasons.NXDOMAIN]⟩ := by
  unfold check_dns_record
  rw [h]

/-- Witness for C4 at a concrete resolver where the domain does not
exist. -/
theorem c4_witness :
    check_dns_record "gone.ayy.fi" "1.2.3.4" "2001:db8::1"
        (fun _ _ => DnsResponse.nxdomain) =
      ⟨"gone.ayy.fi", false, false, [FailReasons.NXDOMAIN]⟩ :=
  c4_nxdomain_result "gone.ayy.fi" "1.2.3.4" "2001:db8::1"
    (fun _ _ => DnsResponse.nxdomain) rfl

/-- C5: a candidate whose first A address equals the reference host's
first A address and whose first AAAA address equals the reference host's
first AAAA address gets an empty failure list and both matched flags
true. -/
theorem c5_matching_addresses_result
    (domain target_ipv4_address target_ipv6_address : String)
    (resolve : String → RecordType → DnsResponse)
    (hA : resolve domain RecordType.A = DnsResponse.answers target_ipv4_address)
    (hAAAA : resolve domain RecordType.AAAA = DnsResponse.answers target_ipv6_address) :
    check_dns_record domain target_ipv4_address target_ipv6_address resolve =
      ⟨domain, true, true, []⟩ := by
  unfold check_dns_record
  rw [hA, hAAAA]
  simp

/-- Witness for C5 at a concrete resolver agreeing with the targets. -/
theorem c5_witness :
    check_dns_record "good.ayy.fi" "1.2.3.4" "2001:db8::1"
        (fun _ rt => match rt with
          | RecordType.A => DnsResponse.answers "1.2.3.4"
          | RecordType.AAAA => DnsResponse.answers "2001:db8::1") =
      ⟨"good.ayy.fi", true, true, []⟩ :=
  c5_matching_addresses_result "good.ayy.fi" "1.2.3.4" "2001:db8::1" _ rfl rfl

/-- C6: an A mismatch with an AAAA match yields exactly INCORRECT_IPv4
(the AAAA record is still checked independently), and a simultaneous
mismatch of both record types yields both reasons. -/
theorem c6_independent_mismatch
    (domain target_ipv4_address target_ipv6_address a4 a6 : String)
    (resolve : String → RecordType → DnsResponse)
    (hA : resolve domain RecordType.A = DnsResponse.answers a4)
    (h4 : a4 ≠ target_ipv4_address) :
    (resolve domain RecordType.AAAA = DnsResponse.answers target_ipv6_address →
      check_dns_record domain target_ipv4_address target_ipv6_address resolve =
        ⟨domain, false, true, [FailReasons.INCORRECT_IPv4]⟩)
    ∧ (resolve domain RecordType.AAAA = DnsResponse.answers a6 →
        a6 ≠ target_ipv6_address →
      check_dns_record domain target_ipv4_address target_ipv6_address resolve =
        ⟨domain, false, false,
          [FailReasons.INCORRECT_IPv4, FailReasons.INCORRECT_IPv6]⟩) := by
  have h4f : (a4 == target_ipv4_address) = false := beq_eq_false_iff_ne.mpr h4
  constructor
  · intro h6
    unfold check_dns_record
    rw [hA, h6]
    simp [bne, h4f]
  · intro h6 hne6
    have h6f : (a6 == target_ipv6_address) = false := beq_eq_false_iff_ne.mpr hne6
    unfold check_dns_record
    rw [hA, h6]
    simp [bne, h4f, h6f]

/-- Witness for C6: the spec scenario with reference addresses 1.2.3.4
and ::1 and a candidate whose A record is 9.9.9.9 but whose AAAA record
matches. -/
theorem c6_witness :
    check_dns_record "wrong4.ayy.fi" "1.2.3.4" "::1"
        (fun _ rt => match rt with
          | RecordType.A => DnsResponse.answers "9.9.9.9"
          | RecordType.AAAA => DnsResponse.answers "::1") =
      ⟨"wrong4.ayy.fi", false, true, [FailReasons.INCORRECT_IPv4]⟩ :=
  (c6_independent_mismatch "wrong4.ayy.fi" "1.2.3.4" "::1" "9.9.9.9" "::1" _
    rfl (by decide)).1 rfl

/-- C9: every CheckResult produced by check_dns_record has an empty
failure list exactly when both matched flags are true; and whenever the
result carries NXDOMAIN or NOANSWER, both matched flags are false — the
resolver oracle is unconstrained, so this holds in particular when the A
record had already matched before the AAAA query raised the exception
(the early return discards the earlier match). -/
theorem c9_result_invariant
    (domain target_ipv4_address target_ipv6_address : String)
    (resolve : String → RecordType → DnsResponse) :
    ((check_dns_record domain target_ipv4_address target_ipv6_address resolve).fails = []
      ↔ ((check_dns_record domain target_ipv4_address target_ipv6_address resolve).ipv4 = true
        ∧ (check_dns_record domain target_ipv4_address target_ipv6_address resolve).ipv6
            = true))
    ∧ (FailReasons.NXDOMAIN ∈
          (check_dns_record domain target_ipv4_address target_ipv6_address resolve).fails
        ∨ FailReasons.NOANSWER ∈
          (check_dns_record domain target_ipv4_address target_ipv6_address resolve).fails →
      (check_dns_record domain target_ipv4_address target_ipv6_address resolve).ipv4 = false
        ∧ (check_dns_record domain target_ipv4_address target_ipv6_address resolve).ipv6
            = false) := by
  unfold check_dns_record
  cases hA : resolve domain RecordType.A with
  | nxdomain => simp
  | noAnswer => simp
  | answers a4 =>
    cases h6 : resolve domain RecordType.AAAA with
    | nxdomain => simp
    | noAnswer => simp
    | answers a6 =>
      cases e4 : (a4 == target_ipv4_address) <;>
        cases e6 : (a6 == target_ipv6_address) <;>
          simp [bne, e4, e6]

/-- Witness for C9 at the corner the claim highlights: the A record has
already matched the target when the AAAA query raises NoAnswer, and the
returned result still has both matched flags false. -/
theorem c9_witness :
    (check_dns_record "half.ayy.fi" "1.2.3.4" "2001:db8::1"
        (fun _ rt => match rt with
          | RecordType.A => DnsResponse.answers "1.2.3.4"
          | RecordType.AAAA => DnsResponse.noAnswer)).ipv4 = false
    ∧ (check_dns_record "half.ayy.fi" "1.2.3.4" "2001:db8::1"
        (fun _ rt => match rt with
          | RecordType.A => DnsResponse.answers "1.2.3.4"
          | RecordType.AAAA => DnsResponse.noAnswer)).ipv6 = false :=
  (c9_result_invariant "half.ayy.fi" "1.2.3.4" "2001:db8::1"
      (fun _ rt => match rt with
        | RecordType.A => DnsResponse.answers "1.2.3.4"
        | RecordType.AAAA => DnsResponse.noAnswer)).2
    (Or.inr (by decide))

/-- C2 (code bug): the report printer emits a host line for a check
result whose failure list is empty.  main passes every CheckResult to
print_fix_instructions and its loop prints "  - domain" before looking
at the failure reasons, so a correctly configured host still produces an
output line, contrary to the module docstring ("Prints the subdomains
that do not point to the correct IP addresses"). -/
theorem c2_success_host_line_printed :
    print_fix_instructions [⟨"ok.ayy.fi", true, true, []⟩] TARGET_HOSTNAME
        "1.2.3.4" "2001:db8::1" =
      ["Fix instructions:", "  - ok.ayy.fi"] := rfl

/-! Supporting lemmas about the linter embedding. -/

theorem pySeq_ok_iff (a b : PyOutcome Unit) :
    pySeq a b = PyOutcome.ok () ↔ a = PyOutcome.ok () ∧ b = PyOutcome.ok () := by
  cases a with
  | ok u => cases u; simp [pySeq]
  | lintError e => simp [pySeq]
  | crash m => simp [pySeq]

theorem pySeq_lintError (a b : PyOutcome Unit) (e : LintErr)
    (h : pySeq a b = PyOutcome.lintError e) :
    a = PyOutcome.lintError e ∨ (a = PyOutcome.ok () ∧ b = PyOutcome.lintError e) := by
  cases a with
  | ok u => cases u; exact Or.inr ⟨rfl, h⟩
  | lintError e0 => exact Or.inl h
  | crash m => exact absurd h (by simp [pySeq])

theorem checkFromList_all_ok (path : String) (xs : List Yaml)
    (h : ∀ y ∈ xs, ∃ s, y = Yaml.str s ∧ allowedRedirectFrom s = true) :
    checkFromList path xs = PyOutcome.ok () := by
  induction xs with
  | nil => rfl
  | cons y ys ih =>
    obtain ⟨s, rfl, hs⟩ := h y (List.mem_cons_self y ys)
    simp only [checkFromList, hs, if_true]
    exact ih (fun z hz => h z (List.mem_cons_of_mem _ hz))

theorem checkFromList_offender (path : String) (xs : List Yaml)
    (hstr : ∀ y ∈ xs, ∃ s, y = Yaml.str s)
    (hbad : ∃ s, Yaml.str s ∈ xs ∧ allowedRedirectFrom s = false) :
    ∃ h, checkFromList path xs = PyOutcome.lintError (LintErr.badSuffix path h)
      ∧ allowedRedirectFrom h = false := by
  induction xs with
  | nil =>
    obtain ⟨s, hs, _⟩ := hbad
    cases hs
  | cons y ys ih =>
    obtain ⟨s0, rfl⟩ := hstr y (List.mem_cons_self y ys)
    cases hall : allowedRedirectFrom s0 with
    | false => exact ⟨s0, by simp [checkFromList, hall], hall⟩
    | true =>
      obtain ⟨s, hmem, hbad1⟩ := hbad
      have hmem2 : Yaml.str s ∈ ys := by
        cases List.mem_cons.mp hmem with
        | inl h =>
          injection h with hs
          subst hs
          rw [hall] at hbad1
          cases hbad1
        | inr h => exact h
      obtain ⟨h1, hh1, hh2⟩ :=
        ih (fun z hz => hstr z (List.mem_cons_of_mem _ hz)) ⟨s, hmem2, hbad1⟩
      exact ⟨h1, by simp [checkFromList, hall, hh1], hh2⟩

theorem checkFromList_err_shape (path : String) (xs : List Yaml) (e : LintErr)
    (h : checkFromList path xs = PyOutcome.lintError e) :
    ∃ s, e = LintErr.badSuffix path s := by
  induction xs with
  | nil => cases h
  | cons y ys ih =>
    cases y with
    | str s =>
      by_cases hall : allowedRedirectFrom s = true
      · rw [checkFromList, if_pos hall] at h
        exact ih h
      · rw [checkFromList, if_neg hall] at h
        injection h with h1
        exact ⟨s, h1.symm⟩
    | null => cases h
    | bool b => cases h
    | int n => cases h
    | list l => cases h
    | map m => cases h

theorem checkRedirectTo_err_shape (path : String) (kvs : List (Yaml × Yaml)) (e : LintErr)
    (h : checkRedirectTo path kvs = PyOutcome.lintError e) :
    e = LintErr.badUrl path := by
  unfold checkRedirectTo at h
  split at h
  · split at h
    · cases h
    · injection h with h1
      exact h1.symm
  · cases h
  · cases h

theorem checkFieldTypes_err_shape (path : String) (kvs : List (Yaml × Yaml)) (e : LintErr)
    (h : checkFieldTypes path kvs = PyOutcome.lintError e) :
    (∃ k, e = LintErr.invalidKey path k) ∨ ∃ f t, e = LintErr.wrongType path f t := by
  induction kvs with
  | nil => cases h
  | cons kv rest ih =>
    obtain ⟨k, v⟩ := kv
    cases k with
    | str s =>
      rw [checkFieldTypes] at h
      split at h
      · injection h with h1
        exact Or.inl ⟨Yaml.str s, h1.symm⟩
      · split at h
        · exact ih h
        · injection h with h1
          exact Or.inr ⟨s, _, h1.symm⟩
    | null => injection h with h1; exact Or.inl ⟨_, h1.symm⟩
    | bool b => injection h with h1; exact Or.inl ⟨_, h1.symm⟩
    | int n => injection h with h1; exact Or.inl ⟨_, h1.symm⟩
    | list l => injection h with h1; exact Or.inl ⟨_, h1.symm⟩
    | map m => injection h with h1; exact Or.inl ⟨_, h1.symm⟩

theorem checkRequiredAux_err_shape (path : String) (kvs : List (Yaml × Yaml))
    (schema : List (String × PyType × Bool)) (e : LintErr)
    (h : checkRequiredAux path kvs schema = PyOutcome.lintError e) :
    ∃ f, e = LintErr.requiredMissing path f := by
  induction schema with
  | nil => cases h
  | cons entry rest ih =>
    obtain ⟨f, ty, req⟩ := entry
    rw [checkRequiredAux] at h
    by_cases hc : (req && !(hasStrKey kvs f)) = true
    · rw [if_pos hc] at h
      injection h with h1
      exact ⟨f, h1.symm⟩
    · rw [if_neg hc] at h
      exact ih h

theorem checkRecord_err_not_notYaml (path : String) (v : Yaml) (e : LintErr)
    (h : checkRecord path v = PyOutcome.lintError e) :
    isNotYamlFileErr e = false := by
  cases v with
  | map kvs =>
    rw [checkRecord] at h
    rcases pySeq_lintError _ _ _ h with h1 | ⟨_, h1⟩
    · rcases checkFieldTypes_err_shape _ _ _ h1 with ⟨k, rfl⟩ | ⟨f, t, rfl⟩ <;> rfl
    · rcases pySeq_lintError _ _ _ h1 with h2 | ⟨_, h2⟩
      · obtain ⟨f, rfl⟩ := checkRequiredAux_err_shape _ _ _ _ h2
        rfl
      · rcases pySeq_lintError _ _ _ h2 with h3 | ⟨_, h3⟩
        · have h4 : ∃ s, e = LintErr.badSuffix path s := by
            unfold checkFromSuffixes at h3
            cases hv : dictGet kvs "redirect_from" with
            | none => rw [hv] at h3; cases h3
            | some w =>
              rw [hv] at h3
              cases w with
              | list xs => exact checkFromList_err_shape _ _ _ h3
              | null => cases h3
              | str s => cases h3
              | bool b => cases h3
              | int n => cases h3
              | map m => cases h3
          obtain ⟨s, rfl⟩ := h4
          rfl
        · rw [checkRedirectTo_err_shape _ _ _ h3]
          rfl
  | null => cases h
  | str s => cases h
  | bool b => cases h
  | int n => cases h
  | list l => cases h

theorem checkValues_err_not_notYaml (path : String) (kvs : List (Yaml × Yaml)) (e : LintErr)
    (h : checkValues path kvs = PyOutcome.lintError e) :
    isNotYamlFileErr e = false := by
  induction kvs with
  | nil => cases h
  | cons kv rest ih =>
    rw [checkValues] at h
    rcases pySeq_lintError _ _ _ h with h1 | ⟨_, h1⟩
    · exact checkRecord_err_not_notYaml _ _ _ h1
    · exact ih h1

theorem check_business_rules_err_not_notYaml (path : String) (doc : Yaml) (e : LintErr)
    (h : check_business_rules path doc = PyOutcome.lintError e) :
    isNotYamlFileErr e = false := by
  cases doc with
  | map kvs =>
    rw [check_business_rules] at h
    by_cases hl : kvs.length = 0
    · rw [if_pos hl] at h
      injection h with h1
      rw [← h1]
      rfl
    · rw [if_neg hl] at h
      cases hk : firstNonStringKey kvs with
      | some k =>
        rw [hk] at h
        injection h with h1
        rw [← h1]
        rfl
      | none =>
        rw [hk] at h
        exact checkValues_err_not_notYaml _ _ _ h
  | null => injection h with h1; rw [← h1]; rfl
  | str s => injection h with h1; rw [← h1]; rfl
  | bool b => injection h with h1; rw [← h1]; rfl
  | int n => injection h with h1; rw [← h1]; rfl
  | list l => injection h with h1; rw [← h1]; rfl

theorem isNotYamlFileErr_false_ne (e : LintErr) (n : String)
    (h : isNotYamlFileErr e = false) : e ≠ LintErr.notYamlFile n := by
  cases e <;> simp_all [isNotYamlFileErr]

theorem classifyEntry_of_bad_name (folder name : String) (c : FileContent)
    (h : isYamlName name = false) :
    classifyEntry folder name c = EntryOutcome.badName := by
  unfold classifyEntry
  simp [h]

theorem classifyEntry_badName_inv (folder name : String) (c : FileContent)
    (h : classifyEntry folder name c = EntryOutcome.badName) :
    isYamlName name = false := by
  cases hy : isYamlName name with
  | false => rfl
  | true =>
    unfold classifyEntry at h
    rw [hy] at h
    simp only [if_true] at h
    split at h
    · cases h
    · cases h
    · split at h
      · cases h
      · split at h
        · split at h
          · cases h
          · cases h
          · cases h
        · cases h
        · cases h

theorem classifyEntry_fileError_inv (folder name : String) (c : FileContent) (e : LintErr)
    (h : classifyEntry folder name c = EntryOutcome.fileError e) :
    isYamlName name = true ∧
      ((∃ m, e = LintErr.yamlSyntax (pathJoin folder name) m) ∨
        (∃ doc, c = FileContent.parsed doc ∧
          check_business_rules (pathJoin folder name) doc = PyOutcome.lintError e)) := by
  cases hy : isYamlName name with
  | false =>
    rw [classifyEntry_of_bad_name folder name c hy] at h
    cases h
  | true =>
    refine ⟨rfl, ?_⟩
    unfold classifyEntry at h
    rw [hy] at h
    simp only [if_true] at h
    split at h
    next e0 hcy =>
      injection h with h1
      cases c with
      | malformed m =>
        left
        refine ⟨m, ?_⟩
        rw [← h1]
        injection hcy with h2
        rw [← h2]
      | parsed doc => cases hcy
    next m hcy => cases h
    next hcy =>
      split at h
      · cases h
      · split at h
        · split at h
          · cases h
          · cases h
          · cases h
        next e1 hbr =>
          injection h with h1
          subst h1
          exact Or.inr ⟨_, rfl, hbr⟩
        next m hbr => cases h

theorem classifyEntry_collected_inv (folder name : String) (c : FileContent) (k : Yaml)
    (h : classifyEntry folder name c = EntryOutcome.collected k) :
    isYamlName name = true ∧
      ∃ doc, c = FileContent.parsed doc ∧
        check_business_rules (pathJoin folder name) doc = PyOutcome.ok () ∧
        get_subdomain_key doc = PyOutcome.ok k := by
  cases hy : isYamlName name with
  | false =>
    rw [classifyEntry_of_bad_name folder name c hy] at h
    cases h
  | true =>
    refine ⟨rfl, ?_⟩
    cases c with
    | malformed m =>
      unfold classifyEntry at h
      rw [hy] at h
      simp [check_yaml_format] at h
    | parsed doc =>
      unfold classifyEntry at h
      rw [hy] at h
      simp only [if_true, check_yaml_format] at h
      refine ⟨doc, rfl, ?_⟩
      split at h
      next u hbr =>
        cases u
        split at h
        next key hk =>
          injection h with h1
          subst h1
          exact ⟨hbr, hk⟩
        · cases h
        · cases h
      · cases h
      · cases h

theorem classifyEntry_fileError_not_notYaml (folder name : String) (c : FileContent)
    (e : LintErr) (h : classifyEntry folder name c = EntryOutcome.fileError e) :
    isNotYamlFileErr e = false := by
  rcases (classifyEntry_fileError_inv folder name c e h).2 with ⟨m, rfl⟩ | ⟨doc, _, hbr⟩
  · rfl
  · exact check_business_rules_err_not_notYaml _ _ _ hbr

theorem classifyEntry_eq_fileError (folder name : String) (doc : Yaml) (e : LintErr)
    (hy : isYamlName name = true)
    (hbr : check_business_rules (pathJoin folder name) doc = PyOutcome.lintError e) :
    classifyEntry folder name (FileContent.parsed doc) = EntryOutcome.fileError e := by
  unfold classifyEntry
  simp [hy, check_yaml_format, hbr]

theorem mainLoop_delta (folder : String) :
    ∀ (files : List (String × FileContent)) (st st' : RunState),
      mainLoop folder st files = Except.ok st' →
      ∃ es ps os,
        st'.linting_errors = st.linting_errors ++ es ∧
        st'.keys_and_filename = st.keys_and_filename ++ ps ∧
        st'.output = st.output ++ os ∧ (es = [] → os = []) := by
  intro files
  induction files with
  | nil =>
    intro st st' h
    injection h with h1
    subst h1
    exact ⟨[], [], [], by simp, by simp, by simp, fun _ => rfl⟩
  | cons f rest ih =>
    obtain ⟨name, c⟩ := f
    intro st st' h
    rw [mainLoop] at h
    split at h
    next key hcl =>
      obtain ⟨es, ps, os, he, hp, ho, hio⟩ := ih _ _ h
      refine ⟨es, (key, name) :: ps, os, by simpa using he, ?_, by simpa using ho, hio⟩
      rw [hp]
      simp
    next e hcl =>
      obtain ⟨es, ps, os, he, hp, ho, hio⟩ := ih _ _ h
      refine ⟨e :: es, ps, ("Error in file:  " ++ pathJoin folder name) :: os, ?_, ?_, ?_, ?_⟩
      · rw [he]; simp
      · simpa using hp
      · rw [ho]; simp
      · intro hcon; cases hcon
    next hcl =>
      obtain ⟨es, ps, os, he, hp, ho, hio⟩ := ih _ _ h
      refine ⟨LintErr.notYamlFile name :: es, ps, os, ?_, by simpa using hp,
        by simpa using ho, ?_⟩
      · rw [he]; simp
      · intro hcon; cases hcon
    next m hcl => cases h

theorem mainLoop_fileError_mem (folder : String) :
    ∀ (files : List (String × FileContent)) (st st' : RunState) (name : String)
      (c : FileContent) (e : LintErr),
      mainLoop folder st files = Except.ok st' →
      (name, c) ∈ files →
      classifyEntry folder name c = EntryOutcome.fileError e →
      e ∈ st'.linting_errors := by
  intro files
  induction files with
  | nil =>
    intro st st' name c e h hmem hcl
    cases hmem
  | cons f rest ih =>
    obtain ⟨n0, c0⟩ := f
    intro st st' name c e h hmem hcl
    rw [mainLoop] at h
    rcases List.mem_cons.mp hmem with heq | hmem2
    · injection heq with h1 h2
      subst h1
      subst h2
      rw [hcl] at h
      obtain ⟨es, ps, os, he, _, _, _⟩ := mainLoop_delta folder rest _ _ h
      rw [he]
      simp
    · split at h
      next key hcl0 => exact ih _ _ _ _ _ h hmem2 hcl
      next e0 hcl0 => exact ih _ _ _ _ _ h hmem2 hcl
      next hcl0 => exact ih _ _ _ _ _ h hmem2 hcl
      next m hcl0 => cases h

theorem mainLoop_badName_mem (folder : String) :
    ∀ (files : List (String × FileContent)) (st st' : RunState) (name : String)
      (c : FileContent),
      mainLoop folder st files = Except.ok st' →
      (name, c) ∈ files →
      isYamlName name = false →
      LintErr.notYamlFile name ∈ st'.linting_errors := by
  intro files
  induction files with
  | nil =>
    intro st st' name c h hmem hy
    cases hmem
  | cons f rest ih =>
    obtain ⟨n0, c0⟩ := f
    intro st st' name c h hmem hy
    rw [mainLoop] at h
    rcases List.mem_cons.mp hmem with heq | hmem2
    · injection heq with h1 h2
      subst h1
      subst h2
      rw [classifyEntry_of_bad_name folder name c hy] at h
      obtain ⟨es, ps, os, he, _, _, _⟩ := mainLoop_delta folder rest _ _ h
      rw [he]
      simp
    · split at h
      next key hcl0 => exact ih _ _ _ _ h hmem2 hy
      next e0 hcl0 => exact ih _ _ _ _ h hmem2 hy
      next hcl0 => exact ih _ _ _ _ h hmem2 hy
      next m hcl0 => cases h

theorem mainLoop_collected_mem (folder : String) :
    ∀ (files : List (String × FileContent)) (st st' : RunState) (name : String)
      (c : FileContent) (k : Yaml),
      mainLoop folder st files = Except.ok st' →
      (name, c) ∈ files →
      classifyEntry folder name c = EntryOutcome.collected k →
      (k, name) ∈ st'.keys_and_filename := by
  intro files
  induction files with
  | nil =>
    intro st st' name c k h hmem hcl
    cases hmem
  | cons f rest ih =>
    obtain ⟨n0, c0⟩ := f
    intro st st' name c k h hmem hcl
    rw [mainLoop] at h
    rcases List.mem_cons.mp hmem with heq | hmem2
    · injection heq with h1 h2
      subst h1
      subst h2
      rw [hcl] at h
      obtain ⟨es, ps, os, _, hp, _, _⟩ := mainLoop_delta folder rest _ _ h
      rw [hp]
      simp
    · split at h
      next key hcl0 => exact ih _ _ _ _ _ h hmem2 hcl
      next e0 hcl0 => exact ih _ _ _ _ _ h hmem2 hcl
      next hcl0 => exact ih _ _ _ _ _ h hmem2 hcl
      next m hcl0 => cases h

theorem mainLoop_pairs_src (folder : String) :
    ∀ (files : List (String × FileContent)) (st st' : RunState) (p : Yaml × String),
      mainLoop folder st files = Except.ok st' →
      p ∈ st'.keys_and_filename →
      p ∈ st.keys_and_filename ∨
        ∃ c, (p.2, c) ∈ files ∧ classifyEntry folder p.2 c = EntryOutcome.collected p.1 := by
  intro files
  induction files with
  | nil =>
    intro st st' p h hmem
    injection h with h1
    subst h1
    exact Or.inl hmem
  | cons f rest ih =>
    obtain ⟨n0, c0⟩ := f
    intro st st' p h hmem
    rw [mainLoop] at h
    split at h
    next key hcl =>
      rcases ih _ _ _ h hmem with hin | ⟨c, hc1, hc2⟩
      · rcases (by simpa using hin : p ∈ st.keys_and_filename ∨ p = (key, n0)) with hin2 | rfl
        · exact Or.inl hin2
        · exact Or.inr ⟨c0, List.mem_cons_self _ _, hcl⟩
      · exact Or.inr ⟨c, List.mem_cons_of_mem _ hc1, hc2⟩
    next e hcl =>
      rcases ih _ _ _ h hmem with hin | ⟨c, hc1, hc2⟩
      · exact Or.inl (by simpa using hin)
      · exact Or.inr ⟨c, List.mem_cons_of_mem _ hc1, hc2⟩
    next hcl =>
      rcases ih _ _ _ h hmem with hin | ⟨c, hc1, hc2⟩
      · exact Or.inl (by simpa using hin)
      · exact Or.inr ⟨c, List.mem_cons_of_mem _ hc1, hc2⟩
    next m hcl => cases h

theorem mainLoop_notYaml_count (folder name : String) :
    ∀ (files : List (String × FileContent)) (st st' : RunState),
      mainLoop folder st files = Except.ok st' →
      st'.linting_errors.count (LintErr.notYamlFile name) =
        st.linting_errors.count (LintErr.notYamlFile name) +
          (files.filter (fun f => f.1 == name && !(isYamlName f.1))).length := by
  intro files
  induction files with
  | nil =>
    intro st st' h
    injection h with h1
    subst h1
    simp
  | cons f rest ih =>
    obtain ⟨n0, c0⟩ := f
    intro st st' h
    rw [mainLoop] at h
    split at h
    next key hcl =>
      have hy : isYamlName n0 = true := (classifyEntry_collected_inv folder n0 c0 key hcl).1
      rw [ih _ _ h]
      simp [List.filter_cons, hy]
    next e hcl =>
      have hy : isYamlName n0 = true := (classifyEntry_fileError_inv folder n0 c0 e hcl).1
      have hne : e ≠ LintErr.notYamlFile name :=
        isNotYamlFileErr_false_ne e name
          (classifyEntry_fileError_not_notYaml folder n0 c0 e hcl)
      rw [ih _ _ h]
      simp [List.filter_cons, hy, List.count_append, List.count_cons, List.count_nil,
        beq_iff_eq, hne]
    next hcl =>
      have hy : isYamlName n0 = false := classifyEntry_badName_inv folder n0 c0 hcl
      rw [ih _ _ h]
      by_cases hn : n0 = name
      · subst hn
        simp [List.filter_cons, hy, List.count_append, List.count_cons, List.count_nil,
          beq_iff_eq]
        omega
      · simp [List.filter_cons, hy, List.count_append, List.count_cons, List.count_nil,
          beq_iff_eq, hn, Ne.symm hn]
    next m hcl => cases h

theorem countKey_cons (x : Yaml) (keys : List Yaml) (k : Yaml) :
    countKey (x :: keys) k = countKey keys k + (if x == k then 1 else 0) := by
  by_cases h : (x == k) = true
  · simp [countKey, List.filter_cons, h]
  · simp [countKey, List.filter_cons, h]

theorem countKey_pos_of_mem (keys : List Yaml) (k : Yaml) (h : k ∈ keys) :
    1 ≤ countKey keys k := by
  induction keys with
  | nil => cases h
  | cons x xs ih =>
    rw [countKey_cons]
    rcases List.mem_cons.mp h with rfl | h2
    · simp
    · have := ih h2
      omega

theorem countKey_ge_two (l : List (Yaml × String)) (k : Yaml) (n1 n2 : String)
    (hne : n1 ≠ n2) (h1 : (k, n1) ∈ l) (h2 : (k, n2) ∈ l) :
    2 ≤ countKey (l.map Prod.fst) k := by
  induction l with
  | nil => cases h1
  | cons p rest ih =>
    obtain ⟨k0, m0⟩ := p
    rw [List.map_cons, countKey_cons]
    rcases List.mem_cons.mp h1 with he1 | ht1
    · rcases List.mem_cons.mp h2 with he2 | ht2
      · injection he1 with ha1 hb1
        injection he2 with ha2 hb2
        exact absurd (hb1.trans hb2.symm) hne
      · injection he1 with ha1 hb1
        subst ha1
        have hc : 1 ≤ countKey (rest.map Prod.fst) k :=
          countKey_pos_of_mem _ _ (List.mem_map.mpr ⟨(k, n2), ht2, rfl⟩)
        simp only [beq_self_eq_true, if_true]
        omega
    · rcases List.mem_cons.mp h2 with he2 | ht2
      · injection he2 with ha2 hb2
        subst ha2
        have hc : 1 ≤ countKey (rest.map Prod.fst) k :=
          countKey_pos_of_mem _ _ (List.mem_map.mpr ⟨(k, n1), ht1, rfl⟩)
        simp only [beq_self_eq_true, if_true]
        omega
      · have := ih ht1 ht2
        omega

theorem mem_dedupKeys (l : List Yaml) (k : Yaml) : k ∈ dedupKeys l ↔ k ∈ l := by
  induction l with
  | nil => simp [dedupKeys]
  | cons x xs ih =>
    by_cases hx : x ∈ dedupKeys xs
    · rw [dedupKeys, if_pos hx, ih]
      constructor
      · intro h
        exact List.mem_cons_of_mem _ h
      · intro h
        rcases List.mem_cons.mp h with rfl | h2
        · exact ih.mp hx
        · exact h2
    · rw [dedupKeys, if_neg hx]
      constructor
      · intro h
        rcases List.mem_cons.mp h with rfl | h2
        · exact List.mem_cons_self _ _
        · exact List.mem_cons_of_mem _ (ih.mp h2)
      · intro h
        rcases List.mem_cons.mp h with rfl | h2
        · exact List.mem_cons_self _ _
        · exact List.mem_cons_of_mem _ (ih.mpr h2)

theorem check_no_duplicate_keys_spec (pairs : List (Yaml × String)) (k : Yaml)
    (n1 n2 : String) (hne : n1 ≠ n2) (h1 : (k, n1) ∈ pairs) (h2 : (k, n2) ∈ pairs) :
    ∃ dups fs, check_no_duplicate_keys pairs = some (LintErr.duplicateKeys dups fs)
      ∧ ∀ f, (k, f) ∈ pairs → f ∈ fs := by
  have hc2 : 2 ≤ countKey (pairs.map Prod.fst) k := countKey_ge_two pairs k n1 n2 hne h1 h2
  have hkmem : k ∈ pairs.map Prod.fst := List.mem_map.mpr ⟨(k, n1), h1, rfl⟩
  have hkdup : k ∈ duplicate_keys_of (pairs.map Prod.fst) := by
    unfold duplicate_keys_of
    rw [mem_dedupKeys]
    refine List.mem_filter.mpr ⟨hkmem, ?_⟩
    simp only [decide_eq_true_eq]
    omega
  have hnonempty : (duplicate_keys_of (pairs.map Prod.fst)).isEmpty = false := by
    rcases hl : duplicate_keys_of (pairs.map Prod.fst) with _ | ⟨a, l⟩
    · rw [hl] at hkdup
      cases hkdup
    · rfl
  refine ⟨duplicate_keys_of (pairs.map Prod.fst),
    (pairs.filter
        (fun p => decide (p.1 ∈ duplicate_keys_of (pairs.map Prod.fst)))).map Prod.snd,
    ?_, ?_⟩
  · unfold check_no_duplicate_keys
    rw [hnonempty]
    rfl
  · intro f hf
    refine List.mem_map.mpr ⟨(k, f), ?_, rfl⟩
    exact List.mem_filter.mpr ⟨hf, by simpa using hkdup⟩

theorem mainRun_ok (folder : String) (files : List (String × FileContent)) (st : RunState)
    (hloop : mainLoop folder initState files = Except.ok st) :
    mainRun folder files = finalize st := by
  unfold mainRun
  rw [hloop]

theorem finalize_dup (st : RunState) (dups : List Yaml) (fs : List String)
    (hdup : check_no_duplicate_keys st.keys_and_filename =
      some (LintErr.duplicateKeys dups fs)) :
    finalize st = MainResult.exited
      (st.linting_errors ++ [LintErr.duplicateKeys dups fs])
      (st.output ++ ["Linting errors:"] ++
        (st.linting_errors ++ [LintErr.duplicateKeys dups fs]).map render) 1 := by
  have hd : dupErrList st.keys_and_filename = [LintErr.duplicateKeys dups fs] := by
    unfold dupErrList
    rw [hdup]
  have hne : (st.linting_errors ++ [LintErr.duplicateKeys dups fs]).isEmpty = false := by
    rcases st.linting_errors with _ | ⟨a, l⟩ <;> rfl
  unfold finalize
  rw [hd, hne]
  rfl

/-! Claim theorems for the linter. -/

/-- C3 (code bug): on a file whose record value is not a mapping,
check_business_rules calls .items() on the value and raises an uncaught
AttributeError, and main's run aborts instead of recording one
diagnostic for that file and continuing with the remaining files (here a
perfectly valid second file is never reported on). -/
theorem c3_nonmapping_record_crashes_run :
    check_business_rules "subdomains/bad.yaml"
        (Yaml.map [(Yaml.str "bad.ayy.fi", Yaml.str "hello")]) =
      PyOutcome.crash "AttributeError: \x27str\x27 object has no attribute \x27items\x27"
    ∧ mainRun "subdomains"
        [("bad.yaml", FileContent.parsed
          (Yaml.map [(Yaml.str "bad.ayy.fi", Yaml.str "hello")])),
         ("good.yaml", FileContent.parsed
          (Yaml.map [(Yaml.str "good", Yaml.map
            [(Yaml.str "redirect_from", Yaml.list [Yaml.str "g.ayy.fi"]),
             (Yaml.str "redirect_to", Yaml.str "https://example.com")])]))] =
      MainResult.crash "AttributeError: \x27str\x27 object has no attribute \x27items\x27" :=
  ⟨rfl, rfl⟩

/-- C1 is false as stated: in this folder both files pass per-file
validation and the subdomain key "k2" appears as a top-level key in both
files, yet the linter reports no duplicate-key error at all (it exits 0
with "No errors found"), because duplicate detection only collects the
first top-level key of each file. -/
theorem c1_counterexample :
    mainRun "subdomains"
      [("a.yaml", FileContent.parsed (Yaml.map
        [(Yaml.str "k1", Yaml.map
          [(Yaml.str "redirect_from", Yaml.list [Yaml.str "x.ayy.fi"]),
           (Yaml.str "redirect_to", Yaml.str "https://example.com")]),
         (Yaml.str "k2", Yaml.map
          [(Yaml.str "redirect_from", Yaml.list [Yaml.str "y.ayy.fi"]),
           (Yaml.str "redirect_to", Yaml.str "https://example.com")])])),
       ("b.yaml", FileContent.parsed (Yaml.map
        [(Yaml.str "k2", Yaml.map
          [(Yaml.str "redirect_from", Yaml.list [Yaml.str "z.ayy.fi"]),
           (Yaml.str "redirect_to", Yaml.str "https://example.com")])]))] =
    MainResult.exited [] ["No errors found"] 0 := rfl

/-- C1 (amended): whenever the same subdomain key is the collected first
top-level key of two or more files that pass per-file validation (the
loop classifies them as collected), the linter exits with a
duplicate-key error among its reported errors that names every file
whose collected key is that subdomain key. -/
theorem c1_duplicate_error_names_all_files (folder : String)
    (files : List (String × FileContent)) (st : RunState) (k : Yaml)
    (n1 n2 : String) (c1 c2 : FileContent)
    (hloop : mainLoop folder initState files = Except.ok st)
    (h1 : (n1, c1) ∈ files)
    (hc1 : classifyEntry folder n1 c1 = EntryOutcome.collected k)
    (h2 : (n2, c2) ∈ files)
    (hc2 : classifyEntry folder n2 c2 = EntryOutcome.collected k)
    (hne : n1 ≠ n2) :
    ∃ errs out dups fs,
      mainRun folder files = MainResult.exited errs out 1 ∧
      LintErr.duplicateKeys dups fs ∈ errs ∧
      ∀ (n : String) (c : FileContent), (n, c) ∈ files →
        classifyEntry folder n c = EntryOutcome.collected k → n ∈ fs := by
  have hm1 : (k, n1) ∈ st.keys_and_filename :=
    mainLoop_collected_mem folder files _ _ _ _ _ hloop h1 hc1
  have hm2 : (k, n2) ∈ st.keys_and_filename :=
    mainLoop_collected_mem folder files _ _ _ _ _ hloop h2 hc2
  obtain ⟨dups, fs, hdup, hall⟩ :=
    check_no_duplicate_keys_spec st.keys_and_filename k n1 n2 hne hm1 hm2
  refine ⟨st.linting_errors ++ [LintErr.duplicateKeys dups fs],
    st.output ++ ["Linting errors:"] ++
      (st.linting_errors ++ [LintErr.duplicateKeys dups fs]).map render,
    dups, fs, ?_, ?_, ?_⟩
  · rw [mainRun_ok folder files st hloop, finalize_dup st dups fs hdup]
  · simp
  · intro n c hmem hcl
    exact hall n (mainLoop_collected_mem folder files _ _ _ _ _ hloop hmem hcl)

/-- Witness for the amended C1: two single-key files both declaring
"foo"; the run exits 1 with a duplicate-key error naming every file
collected with key "foo". -/
theorem c1_witness :
    ∃ errs out dups fs,
      mainRun "subdomains"
        [("a.yaml", FileContent.parsed (Yaml.map [(Yaml.str "foo", Yaml.map
          [(Yaml.str "redirect_from", Yaml.list [Yaml.str "x.ayy.fi"]),
           (Yaml.str "redirect_to", Yaml.str "https://example.com")])])),
         ("b.yaml", FileContent.parsed (Yaml.map [(Yaml.str "foo", Yaml.map
          [(Yaml.str "redirect_from", Yaml.list [Yaml.str "y.ayy.fi"]),
           (Yaml.str "redirect_to", Yaml.str "https://example.com")])]))] =
        MainResult.exited errs out 1 ∧
      LintErr.duplicateKeys dups fs ∈ errs ∧
      ∀ (n : String) (c : FileContent),
        (n, c) ∈
          [("a.yaml", FileContent.parsed (Yaml.map [(Yaml.str "foo", Yaml.map
            [(Yaml.str "redirect_from", Yaml.list [Yaml.str "x.ayy.fi"]),
             (Yaml.str "redirect_to", Yaml.str "https://example.com")])])),
           ("b.yaml", FileContent.parsed (Yaml.map [(Yaml.str "foo", Yaml.map
            [(Yaml.str "redirect_from", Yaml.list [Yaml.str "y.ayy.fi"]),
             (Yaml.str "redirect_to", Yaml.str "https://example.com")])]))] →
        classifyEntry "subdomains" n c = EntryOutcome.collected (Yaml.str "foo") →
        n ∈ fs :=
  c1_duplicate_error_names_all_files "subdomains"
    [("a.yaml", FileContent.parsed (Yaml.map [(Yaml.str "foo", Yaml.map
      [(Yaml.str "redirect_from", Yaml.list [Yaml.str "x.ayy.fi"]),
       (Yaml.str "redirect_to", Yaml.str "https://example.com")])])),
     ("b.yaml", FileContent.parsed (Yaml.map [(Yaml.str "foo", Yaml.map
      [(Yaml.str "redirect_from", Yaml.list [Yaml.str "y.ayy.fi"]),
       (Yaml.str "redirect_to", Yaml.str "https://example.com")])]))]
    ⟨[], [(Yaml.str "foo", "a.yaml"), (Yaml.str "foo", "b.yaml")], []⟩
    (Yaml.str "foo") "a.yaml" "b.yaml"
    (FileContent.parsed (Yaml.map [(Yaml.str "foo", Yaml.map
      [(Yaml.str "redirect_from", Yaml.list [Yaml.str "x.ayy.fi"]),
       (Yaml.str "redirect_to", Yaml.str "https://example.com")])]))
    (FileContent.parsed (Yaml.map [(Yaml.str "foo", Yaml.map
      [(Yaml.str "redirect_from", Yaml.list [Yaml.str "y.ayy.fi"]),
       (Yaml.str "redirect_to", Yaml.str "https://example.com")])]))
    rfl (by simp) rfl (by simp) rfl (by decide)

theorem finalize_of_errors_ne (st : RunState) (h : st.linting_errors ≠ []) :
    finalize st = MainResult.exited
      (st.linting_errors ++ dupErrList st.keys_and_filename)
      (st.output ++ ["Linting errors:"] ++
        (st.linting_errors ++ dupErrList st.keys_and_filename).map render) 1 := by
  have hne : (st.linting_errors ++ dupErrList st.keys_and_filename).isEmpty = false := by
    rcases hl : st.linting_errors with _ | ⟨a, l⟩
    · exact absurd hl h
    · rfl
  unfold finalize
  rw [hne]
  rfl

theorem filter_name_length_one (files : List (String × FileContent)) (name : String)
    (c : FileContent) (hnodup : (files.map Prod.fst).Nodup) (hmem : (name, c) ∈ files)
    (hy : isYamlName name = false) :
    (files.filter (fun f => f.1 == name && !(isYamlName f.1))).length = 1 := by
  induction files with
  | nil => cases hmem
  | cons f rest ih =>
    obtain ⟨n0, c0⟩ := f
    simp only [List.map_cons, List.nodup_cons] at hnodup
    obtain ⟨hn0, hrest⟩ := hnodup
    rcases List.mem_cons.mp hmem with heq | hmem2
    · injection heq with h1 h2
      subst h1
      subst h2
      have hnil : rest.filter (fun f => f.1 == name && !(isYamlName f.1)) = [] := by
        refine List.filter_eq_nil_iff.mpr ?_
        intro a ha
        have hane : a.1 ≠ name := by
          intro h0
          exact hn0 (h0 ▸ List.mem_map.mpr ⟨a, ha, rfl⟩)
        simp [hane]
      rw [List.filter_cons]
      simp [hy, hnil]
    · have hne : n0 ≠ name := by
        intro h0
        subst h0
        exact hn0 (List.mem_map.mpr ⟨(n0, c), hmem2, rfl⟩)
      rw [List.filter_cons]
      simp only [beq_eq_false_iff_ne.mpr hne, Bool.false_and, if_false]
      exact ih hrest hmem2

/-- C8: whenever a linter invocation terminates normally, it exits with
status 0 printing exactly "No errors found" if no error of any category
was accumulated, and otherwise exits with status 1 printing the
"Linting errors:" header together with every accumulated error. -/
theorem c8_exit_status_and_output (folder : String) (files : List (String × FileContent))
    (errs : List LintErr) (out : List String) (code : Nat)
    (h : mainRun folder files = MainResult.exited errs out code) :
    (errs = [] → code = 0 ∧ out = ["No errors found"])
    ∧ (errs ≠ [] → code = 1 ∧ "Linting errors:" ∈ out ∧ ∀ e ∈ errs, render e ∈ out) := by
  unfold mainRun at h
  split at h
  next m hml => cases h
  next st hml =>
    unfold finalize at h
    split at h
    next hcond =>
      injection h with he ho hc
      have hfe : st.linting_errors ++ dupErrList st.keys_and_filename = [] := by
        rcases hl : st.linting_errors ++ dupErrList st.keys_and_filename with _ | ⟨a, l⟩
        · rfl
        · rw [hl] at hcond
          cases hcond
      have hse : st.linting_errors = [] := (List.append_eq_nil.mp hfe).1
      obtain ⟨es, ps, os, hde, _, hdo, hio⟩ := mainLoop_delta folder files _ _ hml
      have hes : es = [] := by
        have h0 : st.linting_errors = es := by simpa using hde
        rw [hse] at h0
        exact h0.symm
      have hout : st.output = [] := by
        have h0 : st.output = os := by simpa using hdo
        rw [h0, hio hes]
      constructor
      · intro _
        refine ⟨hc.symm, ?_⟩
        rw [← ho, hout]
        rfl
      · intro hcon
        rw [he] at hfe
        exact absurd hfe hcon
    next hcond =>
      injection h with he ho hc
      have hne : errs ≠ [] := by
        intro h0
        rw [he, h0] at hcond
        exact hcond rfl
      constructor
      · intro h0
        exact absurd h0 hne
      · intro _
        refine ⟨hc.symm, ?_, ?_⟩
        · rw [← ho]
          exact List.mem_append_left _ (List.mem_append_right _ (List.mem_singleton_self _))
        · intro e he2
          rw [← ho]
          rw [← he] at he2
          exact List.mem_append_right _ (List.mem_map.mpr ⟨e, he2, rfl⟩)

/-- Witness for C8: a folder with one stray non-YAML file exits with
status 1 printing the header and the accumulated error. -/
theorem c8_witness :
    1 = 1 ∧
    "Linting errors:" ∈
      ["Linting errors:",
       "notes.txt is not a .yaml or .yml file. Only YAML files are allowed"] ∧
    ∀ e ∈ [LintErr.notYamlFile "notes.txt"],
      render e ∈
        ["Linting errors:",
         "notes.txt is not a .yaml or .yml file. Only YAML files are allowed"] :=
  (c8_exit_status_and_output "subdomains" [("notes.txt", FileContent.parsed Yaml.null)]
      [LintErr.notYamlFile "notes.txt"]
      ["Linting errors:",
       "notes.txt is not a .yaml or .yml file. Only YAML files are allowed"]
      1 rfl).2 (List.cons_ne_nil _ _)

/-- C10: a directory entry whose name has no .yaml/.yml extension gets
exactly one "is not a .yaml or .yml file" error (file names in a
directory listing are distinct, hence the Nodup hypothesis), its keys
never reach the duplicate-key pass, and a normally terminating run on
such a folder exits with status 1. -/
theorem c10_non_yaml_file (folder name : String) (c : FileContent)
    (files : List (String × FileContent)) (st : RunState)
    (hloop : mainLoop folder initState files = Except.ok st)
    (hmem : (name, c) ∈ files)
    (hext : isYamlName name = false)
    (hnodup : (files.map Prod.fst).Nodup) :
    st.linting_errors.count (LintErr.notYamlFile name) = 1
    ∧ (∀ p ∈ st.keys_and_filename, p.2 ≠ name)
    ∧ ∃ errs out, mainRun folder files = MainResult.exited errs out 1
        ∧ LintErr.notYamlFile name ∈ errs := by
  have hmem2 : LintErr.notYamlFile name ∈ st.linting_errors :=
    mainLoop_badName_mem folder files _ _ _ _ hloop hmem hext
  refine ⟨?_, ?_, ?_⟩
  · rw [mainLoop_notYaml_count folder name files _ _ hloop,
      filter_name_length_one files name c hnodup hmem hext]
    rfl
  · intro p hp
    rcases mainLoop_pairs_src folder files _ _ p hloop hp with hin | ⟨c2, hc1, hc2⟩
    · cases hin
    · intro h0
      have hy : isYamlName p.2 = true := (classifyEntry_collected_inv folder p.2 c2 p.1 hc2).1
      rw [h0, hext] at hy
      cases hy
  · refine ⟨st.linting_errors ++ dupErrList st.keys_and_filename,
      st.output ++ ["Linting errors:"] ++
        (st.linting_errors ++ dupErrList st.keys_and_filename).map render, ?_, ?_⟩
    · rw [mainRun_ok folder files st hloop,
        finalize_of_errors_ne st (List.ne_nil_of_mem hmem2)]
    · exact List.mem_append_left _ hmem2

/-- Witness for C10: a folder with one stray text file and one valid
YAML file exits 1 with exactly one extension error for the stray file,
whose name is absent from the collected key list. -/
theorem c10_witness :
    (⟨[LintErr.notYamlFile "README.md"], [(Yaml.str "foo", "a.yaml")],
        []⟩ : RunState).linting_errors.count (LintErr.notYamlFile "README.md") = 1
    ∧ (∀ p ∈ (⟨[LintErr.notYamlFile "README.md"], [(Yaml.str "foo", "a.yaml")],
        []⟩ : RunState).keys_and_filename, p.2 ≠ "README.md")
    ∧ ∃ errs out,
        mainRun "subdomains"
          [("README.md", FileContent.parsed Yaml.null),
           ("a.yaml", FileContent.parsed (Yaml.map [(Yaml.str "foo", Yaml.map
             [(Yaml.str "redirect_from", Yaml.list [Yaml.str "x.ayy.fi"]),
              (Yaml.str "redirect_to", Yaml.str "https://example.com")])]))] =
          MainResult.exited errs out 1
        ∧ LintErr.notYamlFile "README.md" ∈ errs :=
  c10_non_yaml_file "subdomains" "README.md" (FileContent.parsed Yaml.null)
    [("README.md", FileContent.parsed Yaml.null),
     ("a.yaml", FileContent.parsed (Yaml.map [(Yaml.str "foo", Yaml.map
       [(Yaml.str "redirect_from", Yaml.list [Yaml.str "x.ayy.fi"]),
        (Yaml.str "redirect_to", Yaml.str "https://example.com")])]))]
    ⟨[LintErr.notYamlFile "README.md"], [(Yaml.str "foo", "a.yaml")], []⟩
    rfl (by simp) rfl (by simp)

theorem pySeq_ok_left (b : PyOutcome Unit) : pySeq (PyOutcome.ok ()) b = b := rfl

theorem checkRecord_after_schema (path : String) (kvs : List (Yaml × Yaml)) (xs : List Yaml)
    (hEarlier : pySeq (checkFieldTypes path kvs) (checkRequired path kvs) = PyOutcome.ok ())
    (hFrom : dictGet kvs "redirect_from" = some (Yaml.list xs)) :
    checkRecord path (Yaml.map kvs) =
      pySeq (checkFromList path xs) (checkRedirectTo path kvs) := by
  obtain ⟨hft, hreq⟩ := (pySeq_ok_iff _ _).mp hEarlier
  simp only [checkRecord, hft, pySeq_ok_left, hreq]
  unfold checkFromSuffixes
  rw [hFrom]

/-- C7: for a record that passes the field-type and required-field
checks and whose redirect_from entries are all strings: if some entry
lacks both allowed suffixes, the record check raises the
"should end with ..." error, and any normally terminating linter run on
a folder containing a YAML-named single-record file with that record
exits with status 1 carrying a suffix-violation error for that file;
if every entry carries an allowed suffix, the record check never raises
a suffix-violation error. -/
theorem c7_suffix_rule (folder name k : String) (kvs : List (Yaml × Yaml)) (xs : List Yaml)
    (files : List (String × FileContent)) (st : RunState)
    (hEarlier : pySeq (checkFieldTypes (pathJoin folder name) kvs)
        (checkRequired (pathJoin folder name) kvs) = PyOutcome.ok ())
    (hFrom : dictGet kvs "redirect_from" = some (Yaml.list xs))
    (hstr : ∀ y ∈ xs, ∃ s, y = Yaml.str s) :
    ((∃ s, Yaml.str s ∈ xs ∧ allowedRedirectFrom s = false) →
      (∃ h, checkRecord (pathJoin folder name) (Yaml.map kvs) =
          PyOutcome.lintError (LintErr.badSuffix (pathJoin folder name) h))
      ∧ (mainLoop folder initState files = Except.ok st →
         (name, FileContent.parsed (Yaml.map [(Yaml.str k, Yaml.map kvs)])) ∈ files →
         isYamlName name = true →
         ∃ errs out, mainRun folder files = MainResult.exited errs out 1 ∧
           ∃ h, LintErr.badSuffix (pathJoin folder name) h ∈ errs))
    ∧ ((∀ s, Yaml.str s ∈ xs → allowedRedirectFrom s = true) →
      ∀ h, checkRecord (pathJoin folder name) (Yaml.map kvs) ≠
        PyOutcome.lintError (LintErr.badSuffix (pathJoin folder name) h)) := by
  have hCR := checkRecord_after_schema (pathJoin folder name) kvs xs hEarlier hFrom
  constructor
  · intro hbad
    obtain ⟨h0, hfl, hbad0⟩ := checkFromList_offender (pathJoin folder name) xs hstr hbad
    have hrec : checkRecord (pathJoin folder name) (Yaml.map kvs) =
        PyOutcome.lintError (LintErr.badSuffix (pathJoin folder name) h0) := by
      rw [hCR, hfl]
      rfl
    refine ⟨⟨h0, hrec⟩, ?_⟩
    intro hloop hmem hy
    have hbr : check_business_rules (pathJoin folder name)
        (Yaml.map [(Yaml.str k, Yaml.map kvs)]) =
        PyOutcome.lintError (LintErr.badSuffix (pathJoin folder name) h0) := by
      unfold check_business_rules
      simp [firstNonStringKey, checkValues, pySeq, hrec]
    have hcl := classifyEntry_eq_fileError folder name _ _ hy hbr
    have hmemE := mainLoop_fileError_mem folder files _ _ _ _ _ hloop hmem hcl
    refine ⟨st.linting_errors ++ dupErrList st.keys_and_filename,
      st.output ++ ["Linting errors:"] ++
        (st.linting_errors ++ dupErrList st.keys_and_filename).map render,
      ?_, ⟨h0, List.mem_append_left _ hmemE⟩⟩
    rw [mainRun_ok folder files st hloop,
      finalize_of_errors_ne st (List.ne_nil_of_mem hmemE)]
  · intro hgood h0 hcon
    have hfl : checkFromList (pathJoin folder name) xs = PyOutcome.ok () :=
      checkFromList_all_ok _ _ (fun y hy => by
        obtain ⟨s, hs⟩ := hstr y hy
        exact ⟨s, hs, hgood s (hs ▸ hy)⟩)
    rw [hCR, hfl, pySeq_ok_left] at hcon
    exact LintErr.noConfusion (checkRedirectTo_err_shape _ _ _ hcon)

/-- Witness for C7: the spec scenario redirect_from: ["a.example.com"]
(wrong suffix); the linter exits 1 with a suffix-violation error for the
file. -/
theorem c7_witness :
    ∃ errs out,
      mainRun "subdomains"
        [("a.yaml", FileContent.parsed (Yaml.map [(Yaml.str "a", Yaml.map
          [(Yaml.str "redirect_from", Yaml.list [Yaml.str "a.example.com"]),
           (Yaml.str "redirect_to", Yaml.str "https://example.com")])]))] =
        MainResult.exited errs out 1 ∧
      ∃ h, LintErr.badSuffix (pathJoin "subdomains" "a.yaml") h ∈ errs :=
  ((c7_suffix_rule "subdomains" "a.yaml" "a"
      [(Yaml.str "redirect_from", Yaml.list [Yaml.str "a.example.com"]),
       (Yaml.str "redirect_to", Yaml.str "https://example.com")]
      [Yaml.str "a.example.com"]
      [("a.yaml", FileContent.parsed (Yaml.map [(Yaml.str "a", Yaml.map
        [(Yaml.str "redirect_from", Yaml.list [Yaml.str "a.example.com"]),
         (Yaml.str "redirect_to", Yaml.str "https://example.com")])]))]
      ⟨[LintErr.badSuffix "subdomains/a.yaml" "a.example.com"], [],
        ["Error in file:  subdomains/a.yaml"]⟩
      rfl rfl
      (fun y hy => ⟨"a.example.com", List.mem_singleton.mp hy⟩)).1
    ⟨"a.example.com", List.mem_singleton_self _, rfl⟩).2
    rfl (List.mem_singleton_self _) rfl
